import Mathlib

/-!
Verification development for the flare-evaluation core
(`flare_evaluation/core/evaluator.py` and `flare_evaluation/core/metrics.py`).

The evaluator classifies every sample of a 2D sensor array into intensity
bands by fixed thresholds and aggregates band statistics into scalar
metrics.  Sensor values and thresholds are embedded as rationals; the one
genuinely real-valued operation (`coverage_ratio ** beta_coverage`, a
Python float power) is embedded as `Real.rpow`, which agrees with Python
on every case exercised here (`x ** 0 = 1`, `0 ** y = 0` for `y > 0`).
-/

namespace FlareEval

set_option maxRecDepth 4000

/-- The evaluator's configuration record (`FlareEvaluator.config`):
`offset`, `signal_threshold`, `direct_illumination_threshold`,
`light_threshold`, `pixel_pitch_um`, `beta_coverage`. -/
structure EvaluationParams where
  offset : ℚ
  signal_threshold : ℚ
  direct_illumination_threshold : ℚ
  light_threshold : ℚ
  pixel_pitch_um : ℚ
  beta_coverage : ℚ

/-- A dense 2D grid of sensor samples (the `data` argument of
`FlareEvaluator.evaluate`): height, width, and a value at each index. -/
structure SensorData where
  H : ℕ
  W : ℕ
  val : Fin H → Fin W → ℚ

/-- `data.size` of a numpy 2D array: number of samples. -/
def SensorData.size (d : SensorData) : ℕ := d.H * d.W

/-- Background band: `value <= offset + signal_threshold`
(complement of the three masks computed by `evaluate`). -/
def backgroundCond (p : EvaluationParams) (v : ℚ) : Prop :=
  v ≤ p.offset + p.signal_threshold

/-- Flare band (`flare_condition` in `evaluate`):
`data > offset + signal_threshold` and `data <= direct_illumination_threshold`. -/
def flareCond (p : EvaluationParams) (v : ℚ) : Prop :=
  p.offset + p.signal_threshold < v ∧ v ≤ p.direct_illumination_threshold

/-- Direct-illumination band (`direct_illumination_mask` in `evaluate`):
`data > direct_illumination_threshold` and `data <= light_threshold`. -/
def directCond (p : EvaluationParams) (v : ℚ) : Prop :=
  p.direct_illumination_threshold < v ∧ v ≤ p.light_threshold

/-- Light-source band (`light_mask` in `evaluate`): `data > light_threshold`. -/
def lightCond (p : EvaluationParams) (v : ℚ) : Prop :=
  p.light_threshold < v

instance (p : EvaluationParams) (v : ℚ) : Decidable (backgroundCond p v) := by
  unfold backgroundCond; infer_instance

instance (p : EvaluationParams) (v : ℚ) : Decidable (flareCond p v) := by
  unfold flareCond; infer_instance

instance (p : EvaluationParams) (v : ℚ) : Decidable (directCond p v) := by
  unfold directCond; infer_instance

instance (p : EvaluationParams) (v : ℚ) : Decidable (lightCond p v) := by
  unfold lightCond; infer_instance

/-- Index positions of the Background band. -/
def backgroundSet (d : SensorData) (p : EvaluationParams) :
    Finset (Fin d.H × Fin d.W) :=
  Finset.univ.filter (fun c => backgroundCond p (d.val c.1 c.2))

/-- Index positions of the Flare band (`flare_condition`). -/
def flareSet (d : SensorData) (p : EvaluationParams) :
    Finset (Fin d.H × Fin d.W) :=
  Finset.univ.filter (fun c => flareCond p (d.val c.1 c.2))

/-- Index positions of the DirectIllumination band. -/
def directSet (d : SensorData) (p : EvaluationParams) :
    Finset (Fin d.H × Fin d.W) :=
  Finset.univ.filter (fun c => directCond p (d.val c.1 c.2))

/-- Index positions of the LightSource band. -/
def lightSet (d : SensorData) (p : EvaluationParams) :
    Finset (Fin d.H × Fin d.W) :=
  Finset.univ.filter (fun c => lightCond p (d.val c.1 c.2))

/-- `signal_pixel_count = len(flare_pixels)`. -/
def signalPixelCount (d : SensorData) (p : EvaluationParams) : ℕ :=
  (flareSet d p).card

/-- `direct_illumination_pixels = np.sum(direct_illumination_mask)`. -/
def directPixelCount (d : SensorData) (p : EvaluationParams) : ℕ :=
  (directSet d p).card

/-- `light_pixels = np.sum(light_mask)`. -/
def lightPixelCount (d : SensorData) (p : EvaluationParams) : ℕ :=
  (lightSet d p).card

/-- Number of Background samples (not reported by `evaluate`; used to
state the partition property). -/
def backgroundPixelCount (d : SensorData) (p : EvaluationParams) : ℕ :=
  (backgroundSet d p).card

/-- `pixel_area_um2 = pixel_pitch_um ** 2`. -/
def pixelArea (p : EvaluationParams) : ℚ := p.pixel_pitch_um ^ 2

/-- `sigma_value = np.sum(data[flare_condition] - offset)`. -/
def sigmaValue (d : SensorData) (p : EvaluationParams) : ℚ :=
  ∑ c ∈ flareSet d p, (d.val c.1 c.2 - p.offset)

/-- `np.sum(data[direct_illumination_mask] - offset)`. -/
def directSum (d : SensorData) (p : EvaluationParams) : ℚ :=
  ∑ c ∈ directSet d p, (d.val c.1 c.2 - p.offset)

/-- `np.sum(data[light_mask] - offset)`. -/
def lightSum (d : SensorData) (p : EvaluationParams) : ℚ :=
  ∑ c ∈ lightSet d p, (d.val c.1 c.2 - p.offset)

/-- `flare_intensity = sigma_value / (signal_pixel_count * pixel_area_um2)`
(meaningful on the code paths where `signal_pixel_count > 0`). -/
def flareIntensity (d : SensorData) (p : EvaluationParams) : ℚ :=
  sigmaValue d p / (signalPixelCount d p * pixelArea p)

/-- `direct_intensity = np.sum(direct_pixels_values) / (len(direct_pixels_values) * pixel_area_um2)`. -/
def directIntensity (d : SensorData) (p : EvaluationParams) : ℚ :=
  directSum d p / (directPixelCount d p * pixelArea p)

/-- `light_intensity = np.sum(light_pixels_values) / (len(light_pixels_values) * pixel_area_um2)`. -/
def lightIntensity (d : SensorData) (p : EvaluationParams) : ℚ :=
  lightSum d p / (lightPixelCount d p * pixelArea p)

/-- `F_raw`: `sigma_value / (signal_pixel_count * pixel_area_um2)` when the
Flare band is nonempty, else `0.0`. -/
def FRaw (d : SensorData) (p : EvaluationParams) : ℚ :=
  if 0 < signalPixelCount d p then
    sigmaValue d p / (signalPixelCount d p * pixelArea p)
  else 0

/-- `F_norm`, exactly as the branch structure of `evaluate` computes it:
ratio against direct illumination when both bands are nonempty and the
direct intensity is positive; otherwise, when the Flare band is nonempty
and the LightSource band is nonempty, fall back to the light-source
intensity as denominator; else `0.0`. -/
def FNorm (d : SensorData) (p : EvaluationParams) : ℚ :=
  if 0 < signalPixelCount d p ∧ 0 < directPixelCount d p then
    if 0 < directIntensity d p then flareIntensity d p / directIntensity d p
    else 0
  else if 0 < signalPixelCount d p ∧ 0 < lightPixelCount d p then
    if 0 < lightIntensity d p then flareIntensity d p / lightIntensity d p
    else 0
  else 0

/-- `coverage_ratio = signal_pixel_count / N_sensor if N_sensor > 0 else 0`. -/
def coverageRatio (d : SensorData) (p : EvaluationParams) : ℚ :=
  if 0 < d.size then (signalPixelCount d p : ℚ) / (d.size : ℚ) else 0

/-- `coverage_weight = coverage_ratio ** beta_coverage`, a Python float
power, embedded as the real power `Real.rpow` (which matches Python's
`0.0 ** 0.0 = 1.0`, `x ** 0 = 1`, and `0.0 ** y = 0.0` for `y > 0`). -/
noncomputable def coverageWeight (d : SensorData) (p : EvaluationParams) : ℝ :=
  (coverageRatio d p : ℝ) ^ (p.beta_coverage : ℝ)

/-- `F_final = F_norm * coverage_weight`. -/
noncomputable def FFinal (d : SensorData) (p : EvaluationParams) : ℝ :=
  (FNorm d p : ℝ) * coverageWeight d p

/-- `flare_value = F_raw * pixel_area_um2` (legacy units). -/
def flareValue (d : SensorData) (p : EvaluationParams) : ℚ :=
  FRaw d p * pixelArea p

/-- `mean_flare_intensity = np.mean(flare_pixels) if len(flare_pixels) > 0 else 0`. -/
def meanFlareIntensity (d : SensorData) (p : EvaluationParams) : ℚ :=
  if 0 < signalPixelCount d p then sigmaValue d p / (signalPixelCount d p : ℚ)
  else 0

/-- `max_flare_intensity = np.max(flare_pixels) if len(flare_pixels) > 0 else 0`. -/
def maxFlareIntensity (d : SensorData) (p : EvaluationParams) : ℚ :=
  if h : (flareSet d p).Nonempty then
    (flareSet d p).sup' h (fun c => d.val c.1 c.2 - p.offset)
  else 0

/-- `flare_coverage = signal_pixel_count / data.size * 100`. -/
def flareCoveragePercent (d : SensorData) (p : EvaluationParams) : ℚ :=
  (signalPixelCount d p : ℚ) / (d.size : ℚ) * 100

/-- `direct_illumination_coverage = direct_illumination_pixels / data.size * 100`. -/
def directCoveragePercent (d : SensorData) (p : EvaluationParams) : ℚ :=
  (directPixelCount d p : ℚ) / (d.size : ℚ) * 100

/-- The result record built by `evaluate` (the `self._last_result`
dictionary), keyed by the same names.  `flare_mask` is
`flare_condition.astype(np.uint8) * 255`, a 0/255-valued array; the
other two masks are boolean arrays. -/
structure EvaluationResult (H W : ℕ) where
  F_raw : ℚ
  F_norm : ℚ
  F_final : ℝ
  pixel_pitch_um : ℚ
  pixel_area_um2 : ℚ
  flare_value : ℚ
  sigma_value : ℚ
  signal_pixel_count : ℕ
  light_pixel_count : ℕ
  direct_illumination_pixel_count : ℕ
  mean_flare_intensity : ℚ
  max_flare_intensity : ℚ
  flare_coverage_percent : ℚ
  direct_illumination_coverage_percent : ℚ
  coverage_ratio : ℚ
  coverage_weight : ℝ
  flare_mask : Fin H → Fin W → ℚ
  light_mask : Fin H → Fin W → Bool
  direct_illumination_mask : Fin H → Fin W → Bool

/-- The result `evaluate` stores and returns on the non-raising path. -/
noncomputable def mkResult (d : SensorData) (p : EvaluationParams) :
    EvaluationResult d.H d.W where
  F_raw := FRaw d p
  F_norm := FNorm d p
  F_final := FFinal d p
  pixel_pitch_um := p.pixel_pitch_um
  pixel_area_um2 := pixelArea p
  flare_value := flareValue d p
  sigma_value := sigmaValue d p
  signal_pixel_count := signalPixelCount d p
  light_pixel_count := lightPixelCount d p
  direct_illumination_pixel_count := directPixelCount d p
  mean_flare_intensity := meanFlareIntensity d p
  max_flare_intensity := maxFlareIntensity d p
  flare_coverage_percent := flareCoveragePercent d p
  direct_illumination_coverage_percent := directCoveragePercent d p
  coverage_ratio := coverageRatio d p
  coverage_weight := coverageWeight d p
  flare_mask := fun i j => if flareCond p (d.val i j) then 255 else 0
  light_mask := fun i j => decide (lightCond p (d.val i j))
  direct_illumination_mask := fun i j => decide (directCond p (d.val i j))

/-- `FlareEvaluator.evaluate`.  On a zero-element array the Python line
`flare_coverage = signal_pixel_count / data.size * 100` raises an
uncaught `ZeroDivisionError` before any result is stored, so the call
never returns a result; this is embedded as an `Except.error`. -/
noncomputable def evaluate (d : SensorData) (p : EvaluationParams) :
    Except String (EvaluationResult d.H d.W) :=
  if d.size = 0 then Except.error "ZeroDivisionError: division by zero"
  else Except.ok (mkResult d p)

/-! ## Concrete inputs used by witnesses and counterexamples -/

/-- The evaluator's default configuration (`_default_config`):
offset 64, signal threshold 10, direct-illumination threshold 400,
light threshold 600, pixel pitch 2.4, beta 0.5. -/
abbrev pDef : EvaluationParams :=
  { offset := 64, signal_threshold := 10, direct_illumination_threshold := 400,
    light_threshold := 600, pixel_pitch_um := 12/5, beta_coverage := 1/2 }

/-- A 2x2 array with value 100 on the diagonal and 64 off it: under the
default parameters the Flare band is exactly the two diagonal cells. -/
abbrev dDiag : SensorData :=
  { H := 2, W := 2, val := fun i j => if i = j then 100 else 64 }

/-- Inverted-threshold parameters: `direct_illumination_threshold = 50`
lies below `offset + signal_threshold = 74`. -/
abbrev pInv : EvaluationParams :=
  { offset := 64, signal_threshold := 10, direct_illumination_threshold := 50,
    light_threshold := 600, pixel_pitch_um := 12/5, beta_coverage := 1/2 }

/-- A 1x1 array holding the single value 60. -/
abbrev dSixty : SensorData :=
  { H := 1, W := 1, val := fun _ _ => 60 }

/-- Parameters whose `light_threshold = 100` lies below
`direct_illumination_threshold = 400`. -/
abbrev pLtLow : EvaluationParams :=
  { offset := 64, signal_threshold := 10, direct_illumination_threshold := 400,
    light_threshold := 100, pixel_pitch_um := 12/5, beta_coverage := 1/2 }

/-- `pLtLow` with `light_threshold` raised to 200 (all other fields equal). -/
abbrev pLtHigh : EvaluationParams := { pLtLow with light_threshold := 200 }

/-- A 1x1 array holding the single value 150. -/
abbrev dOne150 : SensorData :=
  { H := 1, W := 1, val := fun _ _ => 150 }

/-- A 1x1 array holding the single value 100. -/
abbrev dOne100 : SensorData :=
  { H := 1, W := 1, val := fun _ _ => 100 }

/-- The default parameters with `beta_coverage` set to `0`. -/
abbrev pBeta0 : EvaluationParams := { pDef with beta_coverage := 0 }

/-- An empty array: zero rows of width 3, hence zero elements. -/
abbrev dEmpty : SensorData :=
  { H := 0, W := 3, val := fun i _ => i.elim0 }

/-! ## Spec-side definitions used for refinement comparisons -/

/-- The `F_norm` rule in the words of claim C2 / spec §4.1 Metric 2:
the flare/direct intensity ratio when `N_flare > 0`, `N_direct > 0` and
the direct intensity is positive; the LightSource band's intensity
substituted as denominator when `N_flare > 0`, `N_direct == 0`,
`N_light > 0` (and that denominator is positive); `0` in every other
case.  To be compared against `FNorm`, which is translated from the
branch structure of the code. -/
def specFNorm (d : SensorData) (p : EvaluationParams) : ℚ :=
  if 0 < signalPixelCount d p ∧ 0 < directPixelCount d p ∧
      0 < directIntensity d p then
    flareIntensity d p / directIntensity d p
  else if 0 < signalPixelCount d p ∧ directPixelCount d p = 0 ∧
      0 < lightPixelCount d p ∧ 0 < lightIntensity d p then
    flareIntensity d p / lightIntensity d p
  else 0

/-! ## Postprocessor spatial metrics (`FlareMetrics`) -/

section Spatial

variable {H W : ℕ}

/-- 4-adjacency of grid cells (Manhattan distance 1): the default
structuring element `scipy.ndimage.label` generates when none is passed
(squared connectivity 1). -/
def adj4 (a b : Fin H × Fin W) : Bool :=
  decide ((((a.1.val : ℤ) - (b.1.val : ℤ)).natAbs +
    ((a.2.val : ℤ) - (b.2.val : ℤ)).natAbs) = 1)

/-- 8-adjacency of grid cells (Chebyshev distance 1), the connectivity
named by the spec. -/
def adj8 (a b : Fin H × Fin W) : Bool :=
  decide (max (((a.1.val : ℤ) - (b.1.val : ℤ)).natAbs)
    (((a.2.val : ℤ) - (b.2.val : ℤ)).natAbs) = 1)

/-- Row-major linear index of a cell, used as its initial label. -/
def linIdx (c : Fin H × Fin W) : ℕ := c.1.val * W + c.2.val

/-- One round of minimum-label propagation: every masked cell takes the
minimum of its own label and the labels of its masked neighbours. -/
def relaxStep (adj : (Fin H × Fin W) → (Fin H × Fin W) → Bool)
    (mask : Fin H → Fin W → Bool) (f : (Fin H × Fin W) → ℕ) :
    (Fin H × Fin W) → ℕ :=
  fun c =>
    (Finset.univ.filter
      (fun e : Fin H × Fin W => mask e.1 e.2 = true ∧ adj c e = true)).fold
      min (f c) f

/-- Stable labels after `H * W` propagation rounds (enough for any path
in the grid), starting from the row-major indices. -/
def ccLabels (adj : (Fin H × Fin W) → (Fin H × Fin W) → Bool)
    (mask : Fin H → Fin W → Bool) : (Fin H × Fin W) → ℕ :=
  (relaxStep adj mask)^[H * W] linIdx

/-- Number of connected components of the masked cells under the given
adjacency: the number of distinct stable labels among masked cells.
This embeds the count `num_features` returned by `ndimage.label`. -/
def ccCount (adj : (Fin H × Fin W) → (Fin H × Fin W) → Bool)
    (mask : Fin H → Fin W → Bool) : ℕ :=
  ((Finset.univ.filter (fun c : Fin H × Fin W => mask c.1 c.2 = true)).image
    (ccLabels adj mask)).card

/-- `num_flare_regions` of `_compute_spatial_metrics`: components of
`flare_mask > 0` labeled by `ndimage.label` with its default
4-connectivity structuring element. -/
def numFlareRegions (m : Fin H → Fin W → ℚ) : ℕ :=
  ccCount adj4 (fun i j => decide (0 < m i j))

/-- The region count in the words of claim C7 / spec §4.2: the number of
8-connected components of the Flare mask.  To be compared with
`numFlareRegions`, which is translated from the code. -/
def specNumFlareRegions8 (m : Fin H → Fin W → ℚ) : ℕ :=
  ccCount adj8 (fun i j => decide (0 < m i j))

/-- `np.sum(mask)` over the (0/255-valued) flare mask. -/
def maskSum (m : Fin H → Fin W → ℚ) : ℚ :=
  ∑ c : Fin H × Fin W, m c.1 c.2

/-- Row coordinate of `ndimage.center_of_mass(mask)`: the mask-weighted
mean row index. -/
def maskComY (m : Fin H → Fin W → ℚ) : ℚ :=
  (∑ c : Fin H × Fin W, m c.1 c.2 * (c.1.val : ℚ)) / maskSum m

/-- Column coordinate of `ndimage.center_of_mass(mask)`. -/
def maskComX (m : Fin H → Fin W → ℚ) : ℚ :=
  (∑ c : Fin H × Fin W, m c.1 c.2 * (c.2.val : ℚ)) / maskSum m

/-- The positions `np.where(mask > 0)`. -/
def activeSet (m : Fin H → Fin W → ℚ) : Finset (Fin H × Fin W) :=
  Finset.univ.filter (fun c : Fin H × Fin W => 0 < m c.1 c.2)

/-- `np.mean(distances)`: mean Euclidean distance of the positive-mask
positions from the center of mass. -/
noncomputable def meanDistance (m : Fin H → Fin W → ℚ) : ℝ :=
  (∑ c ∈ activeSet m,
    Real.sqrt (((c.1.val : ℝ) - ((maskComY m : ℚ) : ℝ)) ^ 2 +
      ((c.2.val : ℝ) - ((maskComX m : ℚ) : ℝ)) ^ 2)) / ((activeSet m).card : ℝ)

/-- `max_distance = np.sqrt(H**2 + W**2) / 2`. -/
noncomputable def maxDistance (H W : ℕ) : ℝ :=
  Real.sqrt ((H : ℝ) ^ 2 + (W : ℝ) ^ 2) / 2

/-- `_calculate_distribution_score`: `0` when the mask sums to zero or has
no positive entries, else `1 - mean_distance / max_distance`. -/
noncomputable def distributionScore (m : Fin H → Fin W → ℚ) : ℝ :=
  if maskSum m = 0 then 0
  else if (activeSet m).card = 0 then 0
  else 1 - meanDistance m / maxDistance H W

/-- The cells of a boolean Flare mask. -/
def boolActive (mask : Fin H → Fin W → Bool) : Finset (Fin H × Fin W) :=
  Finset.univ.filter (fun c : Fin H × Fin W => mask c.1 c.2 = true)

/-- Row coordinate of the (unweighted) centroid of the Flare cells, as in
the words of claim C7. -/
def boolCentroidY (mask : Fin H → Fin W → Bool) : ℚ :=
  (∑ c ∈ boolActive mask, (c.1.val : ℚ)) / ((boolActive mask).card : ℚ)

/-- Column coordinate of the (unweighted) centroid of the Flare cells. -/
def boolCentroidX (mask : Fin H → Fin W → Bool) : ℚ :=
  (∑ c ∈ boolActive mask, (c.2.val : ℚ)) / ((boolActive mask).card : ℚ)

/-- Mean radial distance of the Flare cells from their centroid. -/
noncomputable def specMeanDistance (mask : Fin H → Fin W → Bool) : ℝ :=
  (∑ c ∈ boolActive mask,
    Real.sqrt (((c.1.val : ℝ) - ((boolCentroidY mask : ℚ) : ℝ)) ^ 2 +
      ((c.2.val : ℝ) - ((boolCentroidX mask : ℚ) : ℝ)) ^ 2)) /
    ((boolActive mask).card : ℝ)

/-- The concentration score in the words of claim C7 / spec §4.2:
`1 - mean_radial_distance_from_centroid / max_possible_distance`, and `0`
when the Flare mask is empty.  To be compared with `distributionScore`,
which is translated from the code. -/
noncomputable def specConcentrationScore (mask : Fin H → Fin W → Bool) : ℝ :=
  if (boolActive mask).card = 0 then 0
  else 1 - specMeanDistance mask / maxDistance H W

end Spatial

/-! ## C1: band partition -/

/-- Claim C1 as stated is false: it quantifies over *every* parameter
record, but with inverted thresholds (`direct_illumination_threshold <
offset + signal_threshold`) the Background and DirectIllumination bands
overlap.  The single sample 60 of `dSixty` lies in both bands under
`pInv`, so the band sizes add up to 2 on a 1-sample array. -/
theorem C1_band_partition_counterexample :
    backgroundCond pInv (60 : ℚ) ∧ directCond pInv (60 : ℚ) ∧
    backgroundPixelCount dSixty pInv + signalPixelCount dSixty pInv +
      directPixelCount dSixty pInv + lightPixelCount dSixty pInv ≠ dSixty.size := by
  refine ⟨by norm_num [backgroundCond], by norm_num [directCond], ?_⟩
  rw [backgroundPixelCount, signalPixelCount, directPixelCount, lightPixelCount]
  rw [show backgroundSet dSixty pInv = {((0 : Fin 1), (0 : Fin 1))} from by
    ext c; fin_cases c <;> simp [backgroundSet, backgroundCond] <;> norm_num]
  rw [show flareSet dSixty pInv = (∅ : Finset (Fin 1 × Fin 1)) from by
    ext c; fin_cases c <;> simp [flareSet, flareCond] <;> norm_num]
  rw [show directSet dSixty pInv = {((0 : Fin 1), (0 : Fin 1))} from by
    ext c; fin_cases c <;> simp [directSet, directCond] <;> norm_num]
  rw [show lightSet dSixty pInv = (∅ : Finset (Fin 1 × Fin 1)) from by
    ext c; fin_cases c <;> simp [lightSet, lightCond] <;> norm_num]
  decide

/-- Claim C1 (amended): under the spec §3 threshold-ordering invariant
`offset + signal_threshold ≤ direct_illumination_threshold ≤
light_threshold`, every sample falls into exactly one of the four bands,
and the four band sizes add up to exactly `data.size`. -/
theorem C1_band_partition (d : SensorData) (p : EvaluationParams)
    (h1 : p.offset + p.signal_threshold ≤ p.direct_illumination_threshold)
    (h2 : p.direct_illumination_threshold ≤ p.light_threshold) :
    (∀ i j,
      (if backgroundCond p (d.val i j) then 1 else 0) +
      (if flareCond p (d.val i j) then 1 else 0) +
      (if directCond p (d.val i j) then 1 else 0) +
      (if lightCond p (d.val i j) then (1 : ℕ) else 0) = 1) ∧
    backgroundPixelCount d p + signalPixelCount d p +
      directPixelCount d p + lightPixelCount d p = d.size := by
  have point : ∀ i j,
      (if backgroundCond p (d.val i j) then 1 else 0) +
      (if flareCond p (d.val i j) then 1 else 0) +
      (if directCond p (d.val i j) then 1 else 0) +
      (if lightCond p (d.val i j) then (1 : ℕ) else 0) = 1 := by
    intro i j
    set v := d.val i j with hv
    by_cases hb : v ≤ p.offset + p.signal_threshold
    · have hf : ¬ flareCond p v := by rw [flareCond]; rintro ⟨h, -⟩; linarith
      have hd : ¬ directCond p v := by rw [directCond]; rintro ⟨h, -⟩; linarith
      have hl : ¬ lightCond p v := by rw [lightCond]; intro h; linarith
      simp [backgroundCond, hb, hf, hd, hl]
    · push_neg at hb
      by_cases hdit : v ≤ p.direct_illumination_threshold
      · have hbg : ¬ backgroundCond p v := by rw [backgroundCond]; intro h; linarith
        have hd : ¬ directCond p v := by rw [directCond]; rintro ⟨h, -⟩; linarith
        have hl : ¬ lightCond p v := by rw [lightCond]; intro h; linarith
        simp [flareCond, hb, hdit, hbg, hd, hl]
      · push_neg at hdit
        by_cases hlt : v ≤ p.light_threshold
        · have hbg : ¬ backgroundCond p v := by rw [backgroundCond]; intro h; linarith
          have hf : ¬ flareCond p v := by rw [flareCond]; rintro ⟨-, h⟩; linarith
          have hl : ¬ lightCond p v := by rw [lightCond]; intro h; linarith
          simp [directCond, hdit, hlt, hbg, hf, hl]
        · push_neg at hlt
          have hbg : ¬ backgroundCond p v := by rw [backgroundCond]; intro h; linarith
          have hf : ¬ flareCond p v := by rw [flareCond]; rintro ⟨-, h⟩; linarith
          have hd : ¬ directCond p v := by rw [directCond]; rintro ⟨-, h⟩; linarith
          simp [lightCond, hlt, hbg, hf, hd]
  refine ⟨point, ?_⟩
  rw [backgroundPixelCount, backgroundSet, Finset.card_filter,
    signalPixelCount, flareSet, Finset.card_filter,
    directPixelCount, directSet, Finset.card_filter,
    lightPixelCount, lightSet, Finset.card_filter,
    ← Finset.sum_add_distrib, ← Finset.sum_add_distrib, ← Finset.sum_add_distrib]
  have : ∀ c : Fin d.H × Fin d.W, c ∈ (Finset.univ : Finset (Fin d.H × Fin d.W)) →
      (if backgroundCond p (d.val c.1 c.2) then 1 else 0) +
      (if flareCond p (d.val c.1 c.2) then 1 else 0) +
      (if directCond p (d.val c.1 c.2) then 1 else 0) +
      (if lightCond p (d.val c.1 c.2) then (1 : ℕ) else 0) = 1 :=
    fun c _ => point c.1 c.2
  rw [Finset.sum_congr rfl this]
  simp [SensorData.size, Finset.card_univ]

/-- Witness for the amended C1 at the default parameters on `dDiag`:
the threshold ordering holds and the four band sizes sum to 4. -/
theorem C1_band_partition_witness :
    pDef.offset + pDef.signal_threshold ≤ pDef.direct_illumination_threshold ∧
    pDef.direct_illumination_threshold ≤ pDef.light_threshold ∧
    backgroundPixelCount dDiag pDef + signalPixelCount dDiag pDef +
      directPixelCount dDiag pDef + lightPixelCount dDiag pDef = dDiag.size :=
  ⟨by norm_num, by norm_num,
    (C1_band_partition dDiag pDef (by norm_num) (by norm_num)).2⟩

/-! ## C6: monotonicity in `light_threshold` -/

/-- Claim C6 as stated is false: raising `light_threshold` from 100 to 200
(other fields fixed) on the single sample 150 strictly *decreases*
`N_direct + N_light` from 1 to 0, because with `light_threshold <
direct_illumination_threshold` the sample leaves the LightSource band
without entering the DirectIllumination band. -/
theorem C6_light_threshold_mono_counterexample :
    pLtHigh = { pLtLow with light_threshold := 200 } ∧
    pLtLow.light_threshold ≤ pLtHigh.light_threshold ∧
    directPixelCount dOne150 pLtHigh + lightPixelCount dOne150 pLtHigh <
      directPixelCount dOne150 pLtLow + lightPixelCount dOne150 pLtLow := by
  refine ⟨rfl, by norm_num, ?_⟩
  rw [directPixelCount, lightPixelCount, directPixelCount, lightPixelCount]
  rw [show directSet dOne150 pLtHigh = (∅ : Finset (Fin 1 × Fin 1)) from by
    ext c; fin_cases c <;> simp [directSet, directCond] <;> norm_num]
  rw [show lightSet dOne150 pLtHigh = (∅ : Finset (Fin 1 × Fin 1)) from by
    ext c; fin_cases c <;> simp [lightSet, lightCond] <;> norm_num]
  rw [show directSet dOne150 pLtLow = (∅ : Finset (Fin 1 × Fin 1)) from by
    ext c; fin_cases c <;> simp [directSet, directCond] <;> norm_num]
  rw [show lightSet dOne150 pLtLow = {((0 : Fin 1), (0 : Fin 1))} from by
    ext c; fin_cases c <;> simp [lightSet, lightCond] <;> norm_num]
  decide

/-- Claim C6 (amended): raising `light_threshold` (other fields fixed)
never increases `N_light`; and provided the raised-from threshold already
satisfies the ordering `direct_illumination_threshold ≤ light_threshold`,
`N_direct + N_light` never decreases (it is in fact preserved). -/
theorem C6_light_threshold_mono (d : SensorData) (p : EvaluationParams)
    (t1 t2 : ℚ) (h12 : t1 ≤ t2) :
    lightPixelCount d { p with light_threshold := t2 } ≤
      lightPixelCount d { p with light_threshold := t1 } ∧
    (p.direct_illumination_threshold ≤ t1 →
      directPixelCount d { p with light_threshold := t1 } +
        lightPixelCount d { p with light_threshold := t1 } ≤
      directPixelCount d { p with light_threshold := t2 } +
        lightPixelCount d { p with light_threshold := t2 }) := by
  constructor
  · apply Finset.card_le_card
    intro c hc
    simp only [lightSet, lightCond, Finset.mem_filter, Finset.mem_univ, true_and] at hc ⊢
    linarith
  · intro hord
    have key : ∀ t : ℚ, p.direct_illumination_threshold ≤ t →
        directPixelCount d { p with light_threshold := t } +
          lightPixelCount d { p with light_threshold := t } =
        (Finset.univ.filter
          (fun c : Fin d.H × Fin d.W =>
            p.direct_illumination_threshold < d.val c.1 c.2)).card := by
      intro t ht
      rw [directPixelCount, lightPixelCount, directSet, lightSet,
        ← Finset.card_union_of_disjoint]
      · congr 1
        ext c
        simp only [Finset.mem_union, Finset.mem_filter, Finset.mem_univ, true_and,
          directCond, lightCond]
        constructor
        · rintro (⟨h, -⟩ | h)
          · exact h
          · linarith
        · intro h
          by_cases hc : d.val c.1 c.2 ≤ t
          · exact Or.inl ⟨h, hc⟩
          · push_neg at hc
            exact Or.inr hc
      · rw [Finset.disjoint_filter]
        intro c _ hdir hlight
        rw [directCond] at hdir
        rw [lightCond] at hlight
        exact absurd hlight (not_lt.mpr hdir.2)
    rw [key t1 hord, key t2 (le_trans hord h12)]

/-- Witness for the amended C6 on `dDiag` with the default parameters,
raising `light_threshold` from 600 to 700. -/
theorem C6_light_threshold_mono_witness :
    (600 : ℚ) ≤ 700 ∧ pDef.direct_illumination_threshold ≤ 600 ∧
    lightPixelCount dDiag { pDef with light_threshold := 700 } ≤
      lightPixelCount dDiag { pDef with light_threshold := 600 } ∧
    directPixelCount dDiag { pDef with light_threshold := 600 } +
      lightPixelCount dDiag { pDef with light_threshold := 600 } ≤
    directPixelCount dDiag { pDef with light_threshold := 700 } +
      lightPixelCount dDiag { pDef with light_threshold := 700 } :=
  ⟨by norm_num, by norm_num,
    (C6_light_threshold_mono dDiag pDef 600 700 (by norm_num)).1,
    (C6_light_threshold_mono dDiag pDef 600 700 (by norm_num)).2 (by norm_num)⟩

/-! ## C2: the F_norm case analysis -/

/-- Claim C2: the `F_norm` computed by the code's branch structure agrees,
on every input, with the case rule stated by the claim (ratio against the
direct band, LightSource fallback exactly when the direct band is empty,
`0` whenever no denominator samples exist or the chosen denominator is
not positive). -/
theorem C2_fnorm_cases (d : SensorData) (p : EvaluationParams) :
    FNorm d p = specFNorm d p := by
  rw [FNorm, specFNorm]
  split_ifs with h1 h2 h3 h4 h5 h6 h7 <;>
    first
      | rfl
      | (exfalso; simp only [Nat.pos_iff_ne_zero] at *; tauto)

/-! ## C3: coverage weight at zero coverage -/

/-- Claim C3 as stated is false: with `beta_coverage = 0` and an
all-background input (`coverage_ratio = 0`), Python computes
`0.0 ** 0.0 = 1.0`, so the returned `coverage_weight` is `1`, not `0`:
the code has no special case for the `0**0` ambiguity. -/
theorem C3_coverage_weight_counterexample :
    coverageRatio dSixty pBeta0 = 0 ∧
    (mkResult dSixty pBeta0).coverage_weight = 1 ∧ (1 : ℝ) ≠ 0 := by
  have hset : flareSet dSixty pBeta0 = (∅ : Finset (Fin 1 × Fin 1)) := by
    ext c; fin_cases c <;> simp [flareSet, flareCond] <;> norm_num
  have hcr : coverageRatio dSixty pBeta0 = 0 := by
    rw [coverageRatio, if_pos (by norm_num [SensorData.size]),
      signalPixelCount, hset]
    norm_num
  refine ⟨hcr, ?_, by norm_num⟩
  show coverageWeight dSixty pBeta0 = 1
  rw [coverageWeight, hcr]
  norm_num

/-- Claim C3 (amended): `coverage_weight = coverage_ratio ** beta_coverage`
under Python float-power semantics, so when `coverage_ratio = 0` the
weight is `0` only for a nonzero exponent; for `beta_coverage = 0` the
weight is `1` (Python's `0.0 ** 0.0`).  `F_final = F_norm * coverage_weight`
is nevertheless `0` whenever the Flare band is empty, because `F_norm`
is already `0`. -/
theorem C3_coverage_weight (d : SensorData) (p : EvaluationParams) :
    ((mkResult d p).coverage_ratio = 0 → p.beta_coverage ≠ 0 →
      (mkResult d p).coverage_weight = 0) ∧
    (p.beta_coverage = 0 → (mkResult d p).coverage_weight = 1) ∧
    (signalPixelCount d p = 0 → (mkResult d p).F_final = 0) := by
  refine ⟨?_, ?_, ?_⟩
  · intro hcr hb
    show coverageWeight d p = 0
    rw [coverageWeight, show coverageRatio d p = 0 from hcr]
    rw [Rat.cast_zero]
    exact Real.zero_rpow (by exact_mod_cast hb)
  · intro hb
    show coverageWeight d p = 1
    rw [coverageWeight, hb]
    rw [Rat.cast_zero]
    exact Real.rpow_zero _
  · intro hc
    show FFinal d p = 0
    have hfn : FNorm d p = 0 := by
      rw [FNorm, if_neg (by simp [hc]), if_neg (by simp [hc])]
    rw [FFinal, hfn]
    simp

/-- Witness for the amended C3: on the all-background 1x1 array `dSixty`
with the default parameters (`beta_coverage = 1/2 ≠ 0`), the coverage
ratio is `0` and the returned coverage weight is `0`. -/
theorem C3_coverage_weight_witness :
    (mkResult dSixty pDef).coverage_ratio = 0 ∧ pDef.beta_coverage ≠ 0 ∧
    (mkResult dSixty pDef).coverage_weight = 0 := by
  have hcr : (mkResult dSixty pDef).coverage_ratio = 0 := by
    show coverageRatio dSixty pDef = 0
    rw [coverageRatio, if_pos (by norm_num [SensorData.size]), signalPixelCount,
      show flareSet dSixty pDef = (∅ : Finset (Fin 1 × Fin 1)) from by
        ext c; fin_cases c <;> simp [flareSet, flareCond] <;> norm_num]
    norm_num
  exact ⟨hcr, by norm_num, (C3_coverage_weight dSixty pDef).1 hcr (by norm_num)⟩

/-! ## C4: all-background input -/

/-- Claim C4: on a non-empty all-background array (every value at most
`offset + signal_threshold`), `evaluate` returns a result (no exception)
with `F_raw = F_norm = F_final = 0` and zero mean/max flare intensity;
no division by zero is performed and no NaN appears. -/
theorem C4_all_background (d : SensorData) (p : EvaluationParams)
    (hne : d.size ≠ 0)
    (hbg : ∀ i j, d.val i j ≤ p.offset + p.signal_threshold) :
    evaluate d p = Except.ok (mkResult d p) ∧
    (mkResult d p).F_raw = 0 ∧ (mkResult d p).F_norm = 0 ∧
    (mkResult d p).F_final = 0 ∧
    (mkResult d p).mean_flare_intensity = 0 ∧
    (mkResult d p).max_flare_intensity = 0 := by
  have hset : flareSet d p = ∅ := by
    ext c
    simp only [flareSet, flareCond, Finset.mem_filter, Finset.mem_univ, true_and,
      Finset.not_mem_empty, iff_false, not_and]
    intro h
    exact absurd h (not_lt.mpr (hbg c.1 c.2))
  have hc : signalPixelCount d p = 0 := by rw [signalPixelCount, hset]; rfl
  have hfn : FNorm d p = 0 := by
    rw [FNorm, if_neg (by simp [hc]), if_neg (by simp [hc])]
  refine ⟨by rw [evaluate, if_neg hne], ?_, hfn, ?_, ?_, ?_⟩
  · show FRaw d p = 0
    rw [FRaw, if_neg (by simp [hc])]
  · show FFinal d p = 0
    rw [FFinal, hfn]; simp
  · show meanFlareIntensity d p = 0
    rw [meanFlareIntensity, if_neg (by simp [hc])]
  · show maxFlareIntensity d p = 0
    rw [maxFlareIntensity, dif_neg (by simp [hset])]

/-- Witness for C4 on the 1x1 all-background array `dSixty` (value
60 ≤ 74) under the default parameters. -/
theorem C4_all_background_witness :
    evaluate dSixty pDef = Except.ok (mkResult dSixty pDef) ∧
    (mkResult dSixty pDef).F_raw = 0 ∧ (mkResult dSixty pDef).F_norm = 0 ∧
    (mkResult dSixty pDef).F_final = 0 ∧
    (mkResult dSixty pDef).mean_flare_intensity = 0 ∧
    (mkResult dSixty pDef).max_flare_intensity = 0 :=
  C4_all_background dSixty pDef (by norm_num [SensorData.size])
    (fun i j => by norm_num)

/-! ## C5: inverted thresholds do not crash -/

/-- Claim C5: with inverted thresholds (`direct_illumination_threshold <
offset + signal_threshold`) on a non-empty array of nonzero values,
`evaluate` still returns a well-formed result; the Flare band is empty
(its range is empty) and the reported counts are the true, possibly
degenerate, band sizes, which never exceed the array size. -/
theorem C5_inverted_thresholds (d : SensorData) (p : EvaluationParams)
    (hne : d.size ≠ 0) (hnz : ∀ i j, d.val i j ≠ 0)
    (hinv : p.direct_illumination_threshold < p.offset + p.signal_threshold) :
    evaluate d p = Except.ok (mkResult d p) ∧
    (mkResult d p).signal_pixel_count = 0 ∧
    (mkResult d p).light_pixel_count = lightPixelCount d p ∧
    (mkResult d p).direct_illumination_pixel_count = directPixelCount d p ∧
    (mkResult d p).light_pixel_count +
      (mkResult d p).direct_illumination_pixel_count ≤ d.size := by
  have hset : flareSet d p = ∅ := by
    ext c
    simp only [flareSet, flareCond, Finset.mem_filter, Finset.mem_univ, true_and,
      Finset.not_mem_empty, iff_false, not_and]
    intro h
    exact fun hle => absurd (lt_of_lt_of_le hinv (le_of_lt h)) (not_lt.mpr hle)
  refine ⟨by rw [evaluate, if_neg hne], ?_, rfl, rfl, ?_⟩
  · show signalPixelCount d p = 0
    rw [signalPixelCount, hset]; rfl
  · show lightPixelCount d p + directPixelCount d p ≤ d.size
    have hdisj : Disjoint (lightSet d p) (directSet d p) := by
      rw [lightSet, directSet, Finset.disjoint_filter]
      intro c _ hlight hdir
      rw [lightCond] at hlight
      rw [directCond] at hdir
      exact absurd hlight (not_lt.mpr hdir.2)
    rw [lightPixelCount, directPixelCount, ← Finset.card_union_of_disjoint hdisj]
    calc ((lightSet d p) ∪ (directSet d p)).card
        ≤ (Finset.univ : Finset (Fin d.H × Fin d.W)).card := Finset.card_le_univ _
      _ = d.size := by simp [SensorData.size]

/-- Witness for C5 on the 1x1 nonzero array `dOne100` under the inverted
parameters `pInv` (`direct_illumination_threshold = 50 < 74`). -/
theorem C5_inverted_thresholds_witness :
    dOne100.size ≠ 0 ∧
    pInv.direct_illumination_threshold < pInv.offset + pInv.signal_threshold ∧
    evaluate dOne100 pInv = Except.ok (mkResult dOne100 pInv) ∧
    (mkResult dOne100 pInv).signal_pixel_count = 0 :=
  ⟨by norm_num [SensorData.size], by norm_num,
    (C5_inverted_thresholds dOne100 pInv (by norm_num [SensorData.size])
      (fun i j => by norm_num) (by norm_num)).1,
    (C5_inverted_thresholds dOne100 pInv (by norm_num [SensorData.size])
      (fun i j => by norm_num) (by norm_num)).2.1⟩

/-! ## C9: zero-element input -/

/-- Claim C9: on a zero-element array `evaluate` fails before building a
result (the Python line `signal_pixel_count / data.size * 100` raises an
uncaught `ZeroDivisionError`), so it never returns an
`EvaluationResult` and no NaN can be propagated into returned metrics. -/
theorem C9_empty_input (d : SensorData) (p : EvaluationParams)
    (h : d.size = 0) :
    evaluate d p = Except.error "ZeroDivisionError: division by zero" ∧
    ∀ r : EvaluationResult d.H d.W, evaluate d p ≠ Except.ok r := by
  refine ⟨by rw [evaluate, if_pos h], fun r => ?_⟩
  rw [evaluate, if_pos h]
  exact fun hcontra => Except.noConfusion hcontra

/-- Witness for C9 on the 0x3 empty array. -/
theorem C9_empty_input_witness :
    dEmpty.size = 0 ∧
    evaluate dEmpty pDef = Except.error "ZeroDivisionError: division by zero" :=
  ⟨by norm_num [SensorData.size],
    (C9_empty_input dEmpty pDef (by norm_num [SensorData.size])).1⟩

/-! ## C10: nonnegativity invariants -/

/-- Claim C10: with `signal_threshold ≥ 0` and `pixel_pitch > 0`, every
Flare-band sample exceeds `offset + signal_threshold ≥ offset`, so all
flare aggregates - `sigma_value`, `F_raw`, `flare_value`,
`mean_flare_intensity`, `max_flare_intensity` - are nonnegative. -/
theorem C10_nonneg (d : SensorData) (p : EvaluationParams)
    (hne : d.size ≠ 0) (hst : 0 ≤ p.signal_threshold)
    (hpp : 0 < p.pixel_pitch_um) :
    0 ≤ (mkResult d p).sigma_value ∧ 0 ≤ (mkResult d p).F_raw ∧
    0 ≤ (mkResult d p).flare_value ∧
    0 ≤ (mkResult d p).mean_flare_intensity ∧
    0 ≤ (mkResult d p).max_flare_intensity := by
  have hpt : ∀ c ∈ flareSet d p, (0 : ℚ) ≤ d.val c.1 c.2 - p.offset := by
    intro c hc
    rw [flareSet, Finset.mem_filter] at hc
    obtain ⟨-, h1, -⟩ := hc
    linarith
  have hsig : (0 : ℚ) ≤ sigmaValue d p := Finset.sum_nonneg hpt
  have harea : (0 : ℚ) ≤ pixelArea p := by
    rw [pixelArea]; positivity
  have hfr : (0 : ℚ) ≤ FRaw d p := by
    rw [FRaw]
    split_ifs
    · exact div_nonneg hsig (by positivity)
    · exact le_refl 0
  refine ⟨hsig, hfr, ?_, ?_, ?_⟩
  · show 0 ≤ flareValue d p
    rw [flareValue]
    exact mul_nonneg hfr harea
  · show 0 ≤ meanFlareIntensity d p
    rw [meanFlareIntensity]
    split_ifs
    · exact div_nonneg hsig (by positivity)
    · exact le_refl 0
  · show 0 ≤ maxFlareIntensity d p
    rcases (flareSet d p).eq_empty_or_nonempty with he | hnon
    · rw [maxFlareIntensity, dif_neg (by simp [he])]
    · rw [maxFlareIntensity, dif_pos hnon]
      obtain ⟨c, hc⟩ := hnon
      have h1 : (0 : ℚ) ≤ d.val c.1 c.2 - p.offset := hpt c hc
      have h2 := Finset.le_sup' (s := flareSet d p)
        (fun e : Fin d.H × Fin d.W => d.val e.1 e.2 - p.offset) hc
      exact le_trans h1 h2

/-! ## C7: postprocessor spatial metrics -/

/-- Claim C7 as stated is false: `_compute_spatial_metrics` calls
`ndimage.label(flare_mask > 0)` with no structuring element, and scipy's
default is 4-connectivity, not the 8-connectivity the claim names.  On
the diagonal Flare mask produced by `dDiag` under the default parameters
the code reports 2 regions while the 8-connected component count is 1. -/
theorem C7_spatial_metrics_counterexample :
    numFlareRegions ((mkResult dDiag pDef).flare_mask) = 2 ∧
    specNumFlareRegions8 ((mkResult dDiag pDef).flare_mask) = 1 ∧
    (2 : ℕ) ≠ 1 := by
  have hbool : (fun i j => decide (0 < (mkResult dDiag pDef).flare_mask i j)) =
      (fun i j : Fin 2 => decide (i = j)) := by
    funext i j
    show decide (0 < (if flareCond pDef (dDiag.val i j) then (255 : ℚ) else 0)) =
      decide (i = j)
    by_cases hij : i = j
    · subst hij
      rw [if_pos (by rw [flareCond]; constructor <;> norm_num)]
      simp
    · rw [if_neg (by
        rw [flareCond]; rintro ⟨h1, -⟩; simp [hij] at h1; norm_num at h1)]
      simp [hij]
  refine ⟨?_, ?_, by norm_num⟩
  · rw [numFlareRegions, hbool]; decide
  · rw [specNumFlareRegions8, hbool]; decide

/-- Claim C7 (amended): the postprocessor's `num_flare_regions` equals the
number of *4-connected* components of the Flare band (scipy's default
labeling connectivity), and the concentration score equals the spec's
formula `1 - mean_radial_distance_from_centroid / max_possible_distance`
with `max_possible_distance = sqrt(H^2+W^2)/2` and score `0` on an empty
Flare mask - the 255-weighted center of mass used by the code coincides
with the unweighted centroid of the Flare cells. -/
theorem C7_spatial_metrics (d : SensorData) (p : EvaluationParams) :
    numFlareRegions ((mkResult d p).flare_mask) =
      ccCount adj4 (fun i j => decide (flareCond p (d.val i j))) ∧
    distributionScore ((mkResult d p).flare_mask) =
      specConcentrationScore (fun i j => decide (flareCond p (d.val i j))) := by
  set b : Fin d.H → Fin d.W → Bool :=
    fun i j => decide (flareCond p (d.val i j)) with hb
  have hmaskb : (fun i j => decide (0 < (mkResult d p).flare_mask i j)) = b := by
    funext i j
    show decide (0 < (if flareCond p (d.val i j) then (255 : ℚ) else 0)) = _
    rw [hb]
    split_ifs with h
    · simp [h]
    · simp [h]
  have hA : activeSet ((mkResult d p).flare_mask) = flareSet d p := by
    ext c
    simp only [activeSet, flareSet, Finset.mem_filter, Finset.mem_univ, true_and]
    show 0 < (if flareCond p (d.val c.1 c.2) then (255 : ℚ) else 0) ↔ _
    split_ifs with h
    · simp [h]
    · simp [h]
  have hB : boolActive b = flareSet d p := by
    ext c
    simp only [boolActive, flareSet, Finset.mem_filter, Finset.mem_univ,
      true_and, hb]
    simp
  have hval : ∀ c : Fin d.H × Fin d.W, (mkResult d p).flare_mask c.1 c.2 =
      if flareCond p (d.val c.1 c.2) then (255 : ℚ) else 0 := fun c => rfl
  have hsum : maskSum ((mkResult d p).flare_mask) =
      255 * ((flareSet d p).card : ℚ) := by
    rw [maskSum]
    calc ∑ c : Fin d.H × Fin d.W, (mkResult d p).flare_mask c.1 c.2
        = ∑ c : Fin d.H × Fin d.W,
            (if flareCond p (d.val c.1 c.2) then (255 : ℚ) else 0) :=
          Finset.sum_congr rfl (fun c _ => hval c)
      _ = ∑ c ∈ flareSet d p, (255 : ℚ) := by
          rw [flareSet, Finset.sum_filter]
      _ = ((flareSet d p).card : ℚ) * 255 := by
          rw [Finset.sum_const, nsmul_eq_mul]
      _ = 255 * ((flareSet d p).card : ℚ) := mul_comm _ _
  have hsubY : ∑ c : Fin d.H × Fin d.W,
      (mkResult d p).flare_mask c.1 c.2 * (c.1.val : ℚ) =
      255 * ∑ c ∈ flareSet d p, (c.1.val : ℚ) := by
    calc ∑ c : Fin d.H × Fin d.W,
        (mkResult d p).flare_mask c.1 c.2 * (c.1.val : ℚ)
        = ∑ c : Fin d.H × Fin d.W,
            (if flareCond p (d.val c.1 c.2) then (255 : ℚ) * (c.1.val : ℚ)
              else 0) := by
          refine Finset.sum_congr rfl (fun c _ => ?_)
          rw [hval c, ite_mul, zero_mul]
      _ = ∑ c ∈ flareSet d p, (255 : ℚ) * (c.1.val : ℚ) := by
          rw [flareSet, Finset.sum_filter]
      _ = 255 * ∑ c ∈ flareSet d p, (c.1.val : ℚ) := by
          rw [Finset.mul_sum]
  have hsubX : ∑ c : Fin d.H × Fin d.W,
      (mkResult d p).flare_mask c.1 c.2 * (c.2.val : ℚ) =
      255 * ∑ c ∈ flareSet d p, (c.2.val : ℚ) := by
    calc ∑ c : Fin d.H × Fin d.W,
        (mkResult d p).flare_mask c.1 c.2 * (c.2.val : ℚ)
        = ∑ c : Fin d.H × Fin d.W,
            (if flareCond p (d.val c.1 c.2) then (255 : ℚ) * (c.2.val : ℚ)
              else 0) := by
          refine Finset.sum_congr rfl (fun c _ => ?_)
          rw [hval c, ite_mul, zero_mul]
      _ = ∑ c ∈ flareSet d p, (255 : ℚ) * (c.2.val : ℚ) := by
          rw [flareSet, Finset.sum_filter]
      _ = 255 * ∑ c ∈ flareSet d p, (c.2.val : ℚ) := by
          rw [Finset.mul_sum]
  have hcomY : (flareSet d p).card ≠ 0 →
      maskComY ((mkResult d p).flare_mask) = boolCentroidY b := by
    intro hn
    rw [maskComY, hsum, hsubY, boolCentroidY, hB]
    exact mul_div_mul_left _ _ (by norm_num)
  have hcomX : (flareSet d p).card ≠ 0 →
      maskComX ((mkResult d p).flare_mask) = boolCentroidX b := by
    intro hn
    rw [maskComX, hsum, hsubX, boolCentroidX, hB]
    exact mul_div_mul_left _ _ (by norm_num)
  constructor
  · rw [numFlareRegions, hmaskb]
  · rcases eq_or_ne (flareSet d p).card 0 with hn | hn
    · rw [distributionScore, if_pos (by rw [hsum, hn]; norm_num),
        specConcentrationScore, if_pos (by rw [hB]; exact hn)]
    · have h255 : maskSum ((mkResult d p).flare_mask) ≠ 0 := by
        rw [hsum]
        exact mul_ne_zero (by norm_num) (Nat.cast_ne_zero.mpr hn)
      rw [distributionScore, if_neg h255, if_neg (by rw [hA]; exact hn),
        specConcentrationScore, if_neg (by rw [hB]; exact hn)]
      have hmd : meanDistance ((mkResult d p).flare_mask) =
          specMeanDistance b := by
        rw [meanDistance, specMeanDistance, hA, hB, hcomY hn, hcomX hn]
      rw [hmd]

/-! ## C8: shape and content of the returned result -/

/-- Claim C8 as stated is false: the result's `flare_mask` is not a
boolean mask but the uint8 array `flare_condition.astype(np.uint8) * 255`;
on `dDiag` under the default parameters its (0,0) entry is 255, which is
neither of the boolean values 0/1.  (The result also contains no
Background mask at all: `_last_result` has only the three keys
`flare_mask`, `light_mask`, `direct_illumination_mask`.) -/
theorem C8_result_masks_counterexample :
    (mkResult dDiag pDef).flare_mask 0 0 = 255 ∧
    ¬((mkResult dDiag pDef).flare_mask 0 0 = 0 ∨
      (mkResult dDiag pDef).flare_mask 0 0 = 1) := by
  have hm : (mkResult dDiag pDef).flare_mask 0 0 = 255 := by
    show (if flareCond pDef (dDiag.val 0 0) then (255 : ℚ) else 0) = 255
    rw [if_pos]
    rw [flareCond]
    constructor <;> norm_num
  refine ⟨hm, ?_⟩
  rw [hm]
  norm_num

/-- Claim C8 (amended): the result returned by `evaluate` carries masks
for three of the four bands - `light_mask` and
`direct_illumination_mask` as boolean arrays of the input's shape, and
`flare_mask` as a 0/255-valued array whose positive entries are exactly
the Flare band (no Background mask is returned) - together with the
per-band pixel counts consistent with those masks and the three scalar
metrics `F_raw`, `F_norm`, `F_final`. -/
theorem C8_result_masks (d : SensorData) (p : EvaluationParams) :
    (∀ i j, (mkResult d p).light_mask i j = true ↔ lightCond p (d.val i j)) ∧
    (∀ i j, (mkResult d p).direct_illumination_mask i j = true ↔
      directCond p (d.val i j)) ∧
    (∀ i j, (mkResult d p).flare_mask i j = 255 ∨
      (mkResult d p).flare_mask i j = 0) ∧
    (∀ i j, 0 < (mkResult d p).flare_mask i j ↔ flareCond p (d.val i j)) ∧
    (mkResult d p).signal_pixel_count =
      (Finset.univ.filter
        (fun c : Fin d.H × Fin d.W => 0 < (mkResult d p).flare_mask c.1 c.2)).card ∧
    (mkResult d p).light_pixel_count =
      (Finset.univ.filter
        (fun c : Fin d.H × Fin d.W => (mkResult d p).light_mask c.1 c.2 = true)).card ∧
    (mkResult d p).direct_illumination_pixel_count =
      (Finset.univ.filter
        (fun c : Fin d.H × Fin d.W =>
          (mkResult d p).direct_illumination_mask c.1 c.2 = true)).card ∧
    (mkResult d p).F_raw = FRaw d p ∧ (mkResult d p).F_norm = FNorm d p ∧
    (mkResult d p).F_final = FFinal d p := by
  have hmask : ∀ i j, 0 < (mkResult d p).flare_mask i j ↔
      flareCond p (d.val i j) := by
    intro i j
    show 0 < (if flareCond p (d.val i j) then (255 : ℚ) else 0) ↔ _
    split_ifs with h
    · simp [h]
    · simp [h]
  refine ⟨?_, ?_, ?_, hmask, ?_, ?_, ?_, rfl, rfl, rfl⟩
  · intro i j
    show decide (lightCond p (d.val i j)) = true ↔ _
    simp
  · intro i j
    show decide (directCond p (d.val i j)) = true ↔ _
    simp
  · intro i j
    show (if flareCond p (d.val i j) then (255 : ℚ) else 0) = 255 ∨
      (if flareCond p (d.val i j) then (255 : ℚ) else 0) = 0
    split_ifs
    · exact Or.inl rfl
    · exact Or.inr rfl
  · show signalPixelCount d p = _
    rw [signalPixelCount, flareSet]
    exact congrArg Finset.card
      (Finset.filter_congr (fun c _ => (hmask c.1 c.2).symm))
  · show lightPixelCount d p = _
    rw [lightPixelCount, lightSet]
    refine congrArg Finset.card (Finset.filter_congr (fun c _ => ?_))
    show lightCond p (d.val c.1 c.2) ↔
      decide (lightCond p (d.val c.1 c.2)) = true
    simp
  · show directPixelCount d p = _
    rw [directPixelCount, directSet]
    refine congrArg Finset.card (Finset.filter_congr (fun c _ => ?_))
    show directCond p (d.val c.1 c.2) ↔
      decide (directCond p (d.val c.1 c.2)) = true
    simp

/-- Witness for C10 on `dDiag` with the default parameters. -/
theorem C10_nonneg_witness :
    dDiag.size ≠ 0 ∧ (0 : ℚ) ≤ pDef.signal_threshold ∧
    (0 : ℚ) < pDef.pixel_pitch_um ∧
    0 ≤ (mkResult dDiag pDef).sigma_value ∧
    0 ≤ (mkResult dDiag pDef).F_raw ∧
    0 ≤ (mkResult dDiag pDef).max_flare_intensity :=
  ⟨by norm_num [SensorData.size], by norm_num, by norm_num,
    (C10_nonneg dDiag pDef (by norm_num [SensorData.size]) (by norm_num)
      (by norm_num)).1,
    (C10_nonneg dDiag pDef (by norm_num [SensorData.size]) (by norm_num)
      (by norm_num)).2.1,
    (C10_nonneg dDiag pDef (by norm_num [SensorData.size]) (by norm_num)
      (by norm_num)).2.2.2.2⟩

end FlareEval
